import Mathlib

/-!
Verification development for the repository compliance-audit orchestrator
(`src/scan.js` and the earlier iterations kept under `src/unnamed/`).

The embedding models the two workers of `src/scan.js`:
  * `runBackgroundScan` (the v4 fire-and-forget worker), and
  * `scan_repo` (the v9 graphile-worker task),
as pure functions from the job inputs plus an environment (the outcomes of the
external subprocesses, parsers and storage calls) to an execution trace: the
external invocations performed, the log lines emitted, the storage uploads
attempted, the scratch files surviving at the end, and the final database
update written to the job record.

String operations mirror JavaScript semantics: `jsIncludes` is
`String.prototype.includes` (substring containment), `jsReplaceFirst` is
`String.prototype.replace` with a plain-string pattern (first occurrence
only), `jsEndsWith` is `String.prototype.endsWith`.
-/

/-- JavaScript `needle.isPrefixOf`-based substring search on character lists:
`strContains needle hay` is true when `needle` occurs contiguously in `hay`. -/
def strContains (needle : List Char) : List Char → Bool
  | [] => needle.isEmpty
  | c :: t => needle.isPrefixOf (c :: t) || strContains needle t

/-- JavaScript `s.includes(sub)`. -/
def jsIncludes (s sub : String) : Bool :=
  strContains sub.toList s.toList

/-- Remove the first occurrence of `needle` from `hay` (JavaScript
`hay.replace(needle, "")` with a plain-string pattern). -/
def removeFirst (needle : List Char) : List Char → List Char
  | [] => []
  | c :: t =>
    if needle.isPrefixOf (c :: t) then (c :: t).drop needle.length
    else c :: removeFirst needle t

/-- JavaScript `s.replace(needle, "")` (first occurrence only). -/
def jsReplaceFirst (s needle : String) : String :=
  String.mk (removeFirst needle.toList s.toList)

/-- JavaScript `s.endsWith(suffix)`. -/
def jsEndsWith (s suffix : String) : Bool :=
  suffix.toList.isSuffixOf s.toList

/-- One license entry of a Trivy JSON result target (`lic.PkgName`,
`lic.Name` in `src/scan.js`). -/
structure LicenseEntry where
  PkgName : String
  Name : String
deriving DecidableEq

/-- One vulnerability entry of a Trivy JSON result target
(`vuln.VulnerabilityID`, `vuln.PkgName`, `vuln.Severity`). -/
structure VulnEntry where
  VulnerabilityID : String
  PkgName : String
  Severity : String
deriving DecidableEq

/-- One element of the `Results` array of a Trivy report: a scanned target
with its license findings and vulnerability findings. -/
structure ScanTarget where
  Licenses : List LicenseEntry
  Vulnerabilities : List VulnEntry
deriving DecidableEq

/-- The parsed Trivy JSON output (`scanResults` in `src/scan.js`); the empty
report `⟨[]⟩` models the `{}` fallback used when Trivy fails. -/
structure TrivyReport where
  Results : List ScanTarget
deriving DecidableEq

/-- One gitleaks finding, as parsed from `leaks.json`; the workers only ever
use the length of the list, the fields reflect the spec's SecretFinding. -/
structure SecretEntry where
  Description : String
  File : String
  StartLine : Nat
  Secret : String
deriving DecidableEq

/-- The substring keywords of the viral-license test in `src/scan.js`
(`['AGPL', 'GPL', 'SSPL']`). -/
def viralKeywords : List String := ["AGPL", "GPL", "SSPL"]

/-- The viral-license test of `src/scan.js`:
`['AGPL','GPL','SSPL'].some(bad => lic.Name.includes(bad))`. -/
def isViralName (name : String) : Bool :=
  viralKeywords.any (fun bad => jsIncludes name bad)

/-- The `viralLicenses` accumulation of the grading block: for each result
target, every license whose name passes the viral test is pushed. -/
def viralLicensesOf (r : TrivyReport) : List LicenseEntry :=
  r.Results.foldl (fun acc t => acc ++ t.Licenses.filter (fun lic => isViralName lic.Name)) []

/-- The `criticalVulns` accumulation of the grading block: every vulnerability
with `Severity === 'CRITICAL'` is pushed. -/
def criticalVulnsOf (r : TrivyReport) : List VulnEntry :=
  r.Results.foldl (fun acc t => acc ++ t.Vulnerabilities.filter (fun v => v.Severity == "CRITICAL")) []

/-- The grading rule of `src/scan.js` (identical in `runBackgroundScan` and in
the `scan_repo` worker task): F when any viral license or any gitleaks secret
exists, else C when any CRITICAL vulnerability exists, else A. -/
def computeGrade (r : TrivyReport) (gitleaksResults : List SecretEntry) : String :=
  if (viralLicensesOf r).length > 0 || gitleaksResults.length > 0 then "F"
  else if (criticalVulnsOf r).length > 0 then "C"
  else "A"

/-- A single scanner-reported item, after flattening the nested Trivy report
shape: the spec's three Finding variants. -/
inductive Finding where
  | license (pkg : String) (name : String)
  | vuln (id : String) (pkg : String) (severity : String)
  | secret (s : SecretEntry)
deriving DecidableEq

/-- Whether a flattened finding is a license finding whose identifier passes
the viral-substring test. -/
def isViralLicenseFinding : Finding → Bool
  | Finding.license _ name => isViralName name
  | _ => false

/-- Whether a flattened finding is a vulnerability finding with severity
CRITICAL. -/
def isCriticalVulnFinding : Finding → Bool
  | Finding.vuln _ _ sev => sev == "CRITICAL"
  | _ => false

/-- Whether a flattened finding is a secret finding. -/
def isSecretFinding : Finding → Bool
  | Finding.secret _ => true
  | _ => false

/-- Flatten one Trivy result target into findings. -/
def findingsOfTarget (t : ScanTarget) : List Finding :=
  t.Licenses.map (fun l => Finding.license l.PkgName l.Name)
    ++ t.Vulnerabilities.map (fun v => Finding.vuln v.VulnerabilityID v.PkgName v.Severity)

/-- Flatten a full scan (Trivy report plus gitleaks secrets) into the finding
set the spec's `classify` is described over. -/
def findingsOf (r : TrivyReport) (secrets : List SecretEntry) : List Finding :=
  r.Results.flatMap findingsOfTarget ++ secrets.map Finding.secret

/-- The risk classification as a function of the flattened finding set,
mirroring the grading block of `src/scan.js`: build the filtered evidence
lists, then test them for emptiness in precedence order. -/
def classify (fs : List Finding) : String :=
  let viral := fs.filter isViralLicenseFinding
  let secretsL := fs.filter isSecretFinding
  let crit := fs.filter isCriticalVulnFinding
  if viral.length > 0 || secretsL.length > 0 then "F"
  else if crit.length > 0 then "C"
  else "A"

/-- Folding a push-style accumulation is appending the flattened map. -/
theorem foldl_append_bind {α β : Type} (f : α → List β) :
    ∀ (l : List α) (init : List β),
      l.foldl (fun acc t => acc ++ f t) init = init ++ l.flatMap f := by
  intro l
  induction l with
  | nil => intro init; simp
  | cons h t ih =>
    intro init
    simp only [List.foldl_cons, List.flatMap_cons]
    rw [ih]
    simp [List.append_assoc]

theorem viralLicensesOf_eq (r : TrivyReport) :
    viralLicensesOf r = r.Results.flatMap (fun t => t.Licenses.filter (fun lic => isViralName lic.Name)) := by
  unfold viralLicensesOf
  rw [foldl_append_bind]
  simp

theorem criticalVulnsOf_eq (r : TrivyReport) :
    criticalVulnsOf r = r.Results.flatMap (fun t => t.Vulnerabilities.filter (fun v => v.Severity == "CRITICAL")) := by
  unfold criticalVulnsOf
  rw [foldl_append_bind]
  simp

/-- Nonemptiness of the viral accumulation coincides with the existence of a
viral license finding in the flattened finding set. -/
theorem viral_nonempty_iff (r : TrivyReport) (secrets : List SecretEntry) :
    0 < (viralLicensesOf r).length ↔
      ∃ f ∈ findingsOf r secrets, isViralLicenseFinding f = true := by
  rw [viralLicensesOf_eq]
  unfold findingsOf
  constructor
  · intro h
    obtain ⟨l, hl⟩ := List.exists_mem_of_length_pos h
    rw [List.mem_flatMap] at hl
    obtain ⟨t, ht, hlt⟩ := hl
    rw [List.mem_filter] at hlt
    refine ⟨Finding.license l.PkgName l.Name, ?_, hlt.2⟩
    rw [List.mem_append]
    left
    rw [List.mem_flatMap]
    refine ⟨t, ht, ?_⟩
    unfold findingsOfTarget
    rw [List.mem_append]
    left
    exact List.mem_map_of_mem _ hlt.1
  · rintro ⟨f, hf, hviral⟩
    rw [List.mem_append] at hf
    rcases hf with hf | hf
    · rw [List.mem_flatMap] at hf
      obtain ⟨t, ht, hft⟩ := hf
      unfold findingsOfTarget at hft
      rw [List.mem_append] at hft
      rcases hft with hft | hft
      · rw [List.mem_map] at hft
        obtain ⟨l, hl, rfl⟩ := hft
        apply List.length_pos.mpr
        intro hnil
        have : l ∈ ([] : List LicenseEntry) := by
          rw [← hnil]
          rw [List.mem_flatMap]
          refine ⟨t, ht, ?_⟩
          rw [List.mem_filter]
          exact ⟨hl, hviral⟩
        simp at this
      · rw [List.mem_map] at hft
        obtain ⟨v, _, rfl⟩ := hft
        simp [isViralLicenseFinding] at hviral
    · rw [List.mem_map] at hf
      obtain ⟨s, _, rfl⟩ := hf
      simp [isViralLicenseFinding] at hviral

/-- Nonemptiness of the secret list coincides with the existence of a secret
finding in the flattened finding set. -/
theorem secrets_nonempty_iff (r : TrivyReport) (secrets : List SecretEntry) :
    0 < secrets.length ↔ ∃ f ∈ findingsOf r secrets, isSecretFinding f = true := by
  unfold findingsOf
  constructor
  · intro h
    obtain ⟨s, hs⟩ := List.exists_mem_of_length_pos h
    refine ⟨Finding.secret s, ?_, rfl⟩
    rw [List.mem_append]
    right
    exact List.mem_map_of_mem _ hs
  · rintro ⟨f, hf, hsec⟩
    rw [List.mem_append] at hf
    rcases hf with hf | hf
    · rw [List.mem_flatMap] at hf
      obtain ⟨t, _, hft⟩ := hf
      unfold findingsOfTarget at hft
      rw [List.mem_append] at hft
      rcases hft with hft | hft <;> rw [List.mem_map] at hft <;>
        obtain ⟨x, _, rfl⟩ := hft <;> simp [isSecretFinding] at hsec
    · rw [List.mem_map] at hf
      obtain ⟨s, hs, rfl⟩ := hf
      exact List.length_pos.mpr (List.ne_nil_of_mem hs)

/-- Nonemptiness of the critical accumulation coincides with the existence of
a CRITICAL vulnerability finding in the flattened finding set. -/
theorem critical_nonempty_iff (r : TrivyReport) (secrets : List SecretEntry) :
    0 < (criticalVulnsOf r).length ↔
      ∃ f ∈ findingsOf r secrets, isCriticalVulnFinding f = true := by
  rw [criticalVulnsOf_eq]
  unfold findingsOf
  constructor
  · intro h
    obtain ⟨v, hv⟩ := List.exists_mem_of_length_pos h
    rw [List.mem_flatMap] at hv
    obtain ⟨t, ht, hvt⟩ := hv
    rw [List.mem_filter] at hvt
    refine ⟨Finding.vuln v.VulnerabilityID v.PkgName v.Severity, ?_, hvt.2⟩
    rw [List.mem_append]
    left
    rw [List.mem_flatMap]
    refine ⟨t, ht, ?_⟩
    unfold findingsOfTarget
    rw [List.mem_append]
    right
    exact List.mem_map_of_mem _ hvt.1
  · rintro ⟨f, hf, hcrit⟩
    rw [List.mem_append] at hf
    rcases hf with hf | hf
    · rw [List.mem_flatMap] at hf
      obtain ⟨t, ht, hft⟩ := hf
      unfold findingsOfTarget at hft
      rw [List.mem_append] at hft
      rcases hft with hft | hft
      · rw [List.mem_map] at hft
        obtain ⟨l, _, rfl⟩ := hft
        simp [isCriticalVulnFinding] at hcrit
      · rw [List.mem_map] at hft
        obtain ⟨v, hv, rfl⟩ := hft
        apply List.length_pos.mpr
        intro hnil
        have : v ∈ ([] : List VulnEntry) := by
          rw [← hnil]
          rw [List.mem_flatMap]
          refine ⟨t, ht, ?_⟩
          rw [List.mem_filter]
          exact ⟨hv, hcrit⟩
        simp at this
    · rw [List.mem_map] at hf
      obtain ⟨s, _, rfl⟩ := hf
      simp [isCriticalVulnFinding] at hcrit

/-- Filter-length positivity as an existence statement. -/
theorem filter_length_pos_iff {α : Type} (p : α → Bool) (l : List α) :
    0 < (l.filter p).length ↔ ∃ x ∈ l, p x = true := by
  constructor
  · intro h
    obtain ⟨x, hx⟩ := List.exists_mem_of_length_pos h
    rw [List.mem_filter] at hx
    exact ⟨x, hx.1, hx.2⟩
  · rintro ⟨x, hx, hpx⟩
    apply List.length_pos.mpr
    exact List.ne_nil_of_mem (List.mem_filter.mpr ⟨hx, hpx⟩)

/-- The nested grading of `src/scan.js` agrees with `classify` applied to the
flattened finding set. -/
theorem computeGrade_eq_classify (r : TrivyReport) (secrets : List SecretEntry) :
    computeGrade r secrets = classify (findingsOf r secrets) := by
  unfold computeGrade classify
  have hv := viral_nonempty_iff r secrets
  have hs := secrets_nonempty_iff r secrets
  have hc := critical_nonempty_iff r secrets
  rw [← filter_length_pos_iff isViralLicenseFinding (findingsOf r secrets)] at hv
  rw [← filter_length_pos_iff isSecretFinding (findingsOf r secrets)] at hs
  rw [← filter_length_pos_iff isCriticalVulnFinding (findingsOf r secrets)] at hc
  by_cases h1 : 0 < (viralLicensesOf r).length
  · simp [h1, hv.mp h1]
  · by_cases h2 : 0 < secrets.length
    · simp [h2, hs.mp h2]
    · have hv2 : ¬ 0 < ((findingsOf r secrets).filter isViralLicenseFinding).length :=
        fun h => h1 (hv.mpr h)
      have hs2 : ¬ 0 < ((findingsOf r secrets).filter isSecretFinding).length :=
        fun h => h2 (hs.mpr h)
      by_cases h3 : 0 < (criticalVulnsOf r).length
      · simp [h1, h2, hv2, hs2, h3, hc.mp h3]
      · have hc2 : ¬ 0 < ((findingsOf r secrets).filter isCriticalVulnFinding).length :=
          fun h => h3 (hc.mpr h)
        simp [h1, h2, h3, hv2, hs2, hc2]

/-- Outcome of one fallible external step (a subprocess spawn, or the
certificate generator promise): success, or a failure carrying the error
text the environment produced (for a subprocess, its stderr). -/
inductive ExecOutcome where
  | ok
  | fail (stderr : String)
deriving DecidableEq

/-- Whether an outcome is a failure. -/
def ExecOutcome.isFail : ExecOutcome → Bool
  | ExecOutcome.ok => false
  | ExecOutcome.fail _ => true

/-- One external process invocation, as performed by the workers: either a
single interpolated shell command string handed to `execSync`, or a program
with a discrete argument array (the form the spec requires; the workers
never use it, the constructor exists so the property is statable). -/
inductive Invocation where
  | shellString (cmd : String)
  | argList (prog : String) (args : List String)
deriving DecidableEq

/-- Whether an invocation passes its arguments as a discrete argument list. -/
def Invocation.isArgList : Invocation → Bool
  | Invocation.argList _ _ => true
  | Invocation.shellString _ => false

/-- Whether an invocation is a single interpolated shell string. -/
def Invocation.isShellString : Invocation → Bool
  | Invocation.shellString _ => true
  | Invocation.argList _ _ => false

/-- The fields of a `scans`-table update written by a worker when the job
reaches a terminal state (the timestamp columns carry no information the
claims need and are omitted). -/
structure JobUpdate where
  status : String
  risk_grade : Option String
  pdf_url : Option String
  sbom_url : Option String
  last_error : Option String
deriving DecidableEq

/-- Environment of one worker run: the outcomes of every external effect the
worker cannot determine itself. Supabase storage uploads and table updates
return an error value instead of throwing (supabase-js semantics, and the
spec's `publish → PublicUrl | PublishError` interface), so upload failures
are booleans, not exceptions. The `sbom*` fields are read only by the v9
`scan_repo` worker; `runBackgroundScan` (v4) has no SBOM stage. -/
structure ScanEnv where
  trivyExec : ExecOutcome
  trivyParse : Option TrivyReport
  trivyParseErrMsg : String
  sbomExec : ExecOutcome
  sbomFileWritten : Bool
  sbomUploadFails : Bool
  cloneExec : ExecOutcome
  gitleaksExec : ExecOutcome
  leaksFileExists : Bool
  leaksParse : Option (List SecretEntry)
  leaksParseErrMsg : String
  pdfGen : ExecOutcome
  pdfUploadFails : Bool
deriving DecidableEq

/-- Execution trace of one worker run: external invocations in order, log
lines, storage-upload attempts (object key paired with success), scratch
files still on disk after the run, and the terminal `scans`-table update. -/
structure RunResult where
  invocations : List Invocation
  logs : List String
  uploads : List (String × Bool)
  files : List String
  final : JobUpdate
deriving DecidableEq

/-- The message of the error `execSync` throws when a command exits
non-zero: Node prefixes the interpolated command line itself. -/
def execFailMsg (cmd stderr : String) : String :=
  "Command failed: " ++ cmd ++ "\n" ++ stderr

/-- Credential injection of both workers: when a token is supplied and the
URL mentions `github.com`, embed the token into the fetch URL
(`https://TOKEN@...` after stripping the first `https://`); otherwise use
the URL unmodified. -/
def authRepoOf (repo : String) (token : Option String) : String :=
  match token with
  | some t =>
    if jsIncludes repo "github.com" then
      "https://" ++ t ++ "@" ++ jsReplaceFirst repo "https://"
    else repo
  | none => repo

/-- Normalisation of the configured storage base URL (drop one trailing
slash), shared by both workers. -/
def cleanBaseUrl (supabaseUrl : String) : String :=
  if jsEndsWith supabaseUrl "/" then String.mk supabaseUrl.toList.dropLast
  else supabaseUrl

/-- Public object URL of an uploaded artifact in the `audits` bucket. -/
def publicUrl (base fileName : String) : String :=
  base ++ "/storage/v1/object/public/audits/" ++ fileName

/-- The interpolated Trivy vulnerability/license command (identical in both
workers). -/
def trivyCmd (authRepo : String) : String :=
  "trivy repo " ++ authRepo ++ " --scanners license,vuln --format json --timeout 30m --quiet"

/-- The interpolated Trivy SBOM command of the v9 worker. -/
def sbomCmd (authRepo sbomPath : String) : String :=
  "trivy repo " ++ authRepo ++ " --format cyclonedx --output " ++ sbomPath ++ " --quiet"

/-- The interpolated clone command of the v9 worker (shallow clone). -/
def cloneCmd (authRepo tempDir : String) : String :=
  "git clone --depth 1 " ++ authRepo ++ " " ++ tempDir

/-- The interpolated clone command of the v4 worker (full clone). -/
def cloneCmdV4 (authRepo tempDir : String) : String :=
  "git clone " ++ authRepo ++ " " ++ tempDir

/-- The interpolated gitleaks command of the v9 worker (global binary). -/
def gitleaksCmd (tempDir : String) : String :=
  "gitleaks detect --source=./" ++ tempDir ++ " --report-path=" ++ tempDir ++ "/leaks.json --no-banner --exit-code=0"

/-- The interpolated gitleaks command of the v4 worker (local binary). -/
def gitleaksCmdV4 (tempDir : String) : String :=
  "./gitleaks detect --source=./" ++ tempDir ++ " --report-path=" ++ tempDir ++ "/leaks.json --no-banner --exit-code=0"

/-- The interpolated scratch-directory removal command. -/
def rmCmd (tempDir : String) : String :=
  "rm -rf " ++ tempDir

/-- The per-job scratch clone directory name. -/
def tempDirOf (scanId : String) : String :=
  "temp_" ++ scanId

/-- The per-job SBOM scratch file name of the v9 worker. -/
def sbomPathOf (scanId : String) : String :=
  "sbom_" ++ scanId ++ ".json"

/-- The Trivy report the grading stage sees: the parsed output when the
Trivy subprocess and the JSON parse both succeeded, the `{}` fallback
otherwise. -/
def envReport (env : ScanEnv) : TrivyReport :=
  match env.trivyExec, env.trivyParse with
  | ExecOutcome.ok, some r => r
  | _, _ => TrivyReport.mk []

/-- The gitleaks result list the grading stage sees: the parsed `leaks.json`
when clone, gitleaks and the parse all succeeded and the report file exists,
the `[]` fallback otherwise. -/
def envSecrets (env : ScanEnv) : List SecretEntry :=
  match env.cloneExec, env.gitleaksExec, env.leaksFileExists, env.leaksParse with
  | ExecOutcome.ok, ExecOutcome.ok, true, some s => s
  | _, _, _, _ => []

/-- Log lines of the v9 Trivy stage (the warning printed when the
subprocess fails or its output fails to parse). -/
def trivyLogs (env : ScanEnv) (tCmd : String) : List String :=
  match env.trivyExec with
  | ExecOutcome.fail stderr => ["Trivy warning: " ++ execFailMsg tCmd stderr]
  | ExecOutcome.ok =>
    match env.trivyParse with
    | some _ => []
    | none => ["Trivy warning: " ++ env.trivyParseErrMsg]

/-- SBOM stage of the v9 worker, returning the recorded inventory URL, the
log lines, the scratch files it leaves behind, and the upload attempts. The
catch block does not delete the output file, so a failure after the file
was written leaves it on disk; the success path unlinks it after upload. -/
def sbomStage (env : ScanEnv) (sCmd base sbomPath : String) :
    Option String × List String × List String × List (String × Bool) :=
  match env.sbomExec with
  | ExecOutcome.fail stderr =>
    (none, ["SBOM Generation failed: " ++ execFailMsg sCmd stderr],
     if env.sbomFileWritten then [sbomPath] else [], [])
  | ExecOutcome.ok =>
    if env.sbomFileWritten then
      (some (publicUrl base sbomPath), [], [], [(sbomPath, !env.sbomUploadFails)])
    else (none, [], [], [])

/-- Gitleaks stage of the v9 worker: the secrets list handed to grading, the
log lines, and the invocations performed. Both the success path and the
catch block remove the scratch clone directory; on clone failure the
gitleaks binary is never spawned. -/
def gitleaksStage (env : ScanEnv) (cCmd gCmd rCmd : String) :
    List SecretEntry × List String × List Invocation :=
  match env.cloneExec with
  | ExecOutcome.fail stderr =>
    ([], ["Gitleaks Error: " ++ execFailMsg cCmd stderr],
     [Invocation.shellString cCmd, Invocation.shellString rCmd])
  | ExecOutcome.ok =>
    match env.gitleaksExec with
    | ExecOutcome.fail stderr =>
      ([], ["Gitleaks Error: " ++ execFailMsg gCmd stderr],
       [Invocation.shellString cCmd, Invocation.shellString gCmd, Invocation.shellString rCmd])
    | ExecOutcome.ok =>
      if env.leaksFileExists then
        match env.leaksParse with
        | some secrets =>
          (secrets, ["Found " ++ toString secrets.length ++ " secrets."],
           [Invocation.shellString cCmd, Invocation.shellString gCmd, Invocation.shellString rCmd])
        | none =>
          ([], ["Gitleaks Error: " ++ env.leaksParseErrMsg],
           [Invocation.shellString cCmd, Invocation.shellString gCmd, Invocation.shellString rCmd])
      else
        ([], [], [Invocation.shellString cCmd, Invocation.shellString gCmd, Invocation.shellString rCmd])

/-- The v9 `scan_repo` worker task of `src/scan.js` (lines 269-386): Trivy
scan, SBOM generation and upload, shallow clone plus gitleaks, grading, PDF
generation, PDF upload (result ignored, as in the source), and one terminal
`scans`-table update — `COMPLETED` with grade and artifact URLs when the
pipeline ran to the end, `ERROR` with `last_error` when an exception
escaped (in this worker, only the certificate generator can throw past the
per-stage catch blocks). -/
def scan_repo (repo : String) (token : Option String) (scanId : String)
    (supabaseUrl : String) (env : ScanEnv) : RunResult :=
  let base := cleanBaseUrl supabaseUrl
  let authRepo := authRepoOf repo token
  let tCmd := trivyCmd authRepo
  let sbomPath := sbomPathOf scanId
  let sCmd := sbomCmd authRepo sbomPath
  let tempDir := tempDirOf scanId
  let cCmd := cloneCmd authRepo tempDir
  let gCmd := gitleaksCmd tempDir
  let sbomRes := sbomStage env sCmd base sbomPath
  let glRes := gitleaksStage env cCmd gCmd (rmCmd tempDir)
  let grade := computeGrade (envReport env) (envSecrets env)
  let fileName := scanId ++ ".pdf"
  let invs := [Invocation.shellString tCmd, Invocation.shellString sCmd] ++ glRes.2.2
  let logsAll := ["WORKER: Processing Scan ID " ++ scanId]
    ++ trivyLogs env tCmd ++ sbomRes.2.1 ++ glRes.2.1
  match env.pdfGen with
  | ExecOutcome.fail msg =>
    { invocations := invs
      logs := logsAll ++ ["Worker Failed: " ++ msg]
      uploads := sbomRes.2.2.2
      files := sbomRes.2.2.1
      final := { status := "ERROR", risk_grade := none, pdf_url := none,
                 sbom_url := none, last_error := some msg } }
  | ExecOutcome.ok =>
    { invocations := invs
      logs := logsAll ++ ["Scan " ++ scanId ++ " Finished (Grade: " ++ grade ++ ")"]
      uploads := sbomRes.2.2.2 ++ [(fileName, !env.pdfUploadFails)]
      files := sbomRes.2.2.1
      final := { status := "COMPLETED", risk_grade := some grade,
                 pdf_url := some (publicUrl base fileName),
                 sbom_url := sbomRes.1, last_error := none } }

/-- The v4 `runBackgroundScan` worker of `src/scan.js` (lines 100-214): like
`scan_repo` but without the SBOM stage, with a full clone and the local
`./gitleaks` binary, and no `sbom_url` column in the terminal update. -/
def runBackgroundScan (repo : String) (token : Option String) (scanId : String)
    (supabaseUrl : String) (env : ScanEnv) : RunResult :=
  let base := cleanBaseUrl supabaseUrl
  let authRepo := authRepoOf repo token
  let tCmd := trivyCmd authRepo
  let tempDir := tempDirOf scanId
  let cCmd := cloneCmdV4 authRepo tempDir
  let gCmd := gitleaksCmdV4 tempDir
  let glRes := gitleaksStage env cCmd gCmd (rmCmd tempDir)
  let grade := computeGrade (envReport env) (envSecrets env)
  let fileName := scanId ++ ".pdf"
  let invs := [Invocation.shellString tCmd] ++ glRes.2.2
  let logsAll := ["Background Scan Started for ID: " ++ scanId]
    ++ trivyLogs env tCmd ++ glRes.2.1
  match env.pdfGen with
  | ExecOutcome.fail msg =>
    { invocations := invs
      logs := logsAll ++ ["Scan Failed: " ++ msg]
      uploads := []
      files := []
      final := { status := "ERROR", risk_grade := none, pdf_url := none,
                 sbom_url := none, last_error := some msg } }
  | ExecOutcome.ok =>
    { invocations := invs
      logs := logsAll ++ ["Database Updated for " ++ scanId ++ " (Final Grade: " ++ grade ++ ")"]
      uploads := [(fileName, !env.pdfUploadFails)]
      files := []
      final := { status := "COMPLETED", risk_grade := some grade,
                 pdf_url := some (publicUrl base fileName),
                 sbom_url := none, last_error := none } }

/-- Positivity of a filter length, as a Bool, is `List.any`. -/
theorem decide_filter_pos_eq_any {α : Type} (p : α → Bool) (l : List α) :
    decide (0 < (l.filter p).length) = l.any p := by
  by_cases h : 0 < (l.filter p).length
  · have : l.any p = true := List.any_eq_true.mpr ((filter_length_pos_iff p l).mp h)
    simp [h, this]
  · have : l.any p = false := by
      cases ha : l.any p
      · rfl
      · exact absurd ((filter_length_pos_iff p l).mpr (List.any_eq_true.mp ha)) h
    simp [h, this]

/-- Positivity of a filter length is `List.any`, as an iff. -/
theorem filter_pos_iff_any {α : Type} (p : α → Bool) (l : List α) :
    0 < (l.filter p).length ↔ l.any p = true := by
  rw [filter_length_pos_iff, List.any_eq_true]

/-- The emptiness tests of `classify` are existence tests over the finding
list, with secrets and viral licenses jointly forcing F. -/
theorem classify_eq_any_form (fs : List Finding) :
    classify fs =
      if fs.any isSecretFinding || fs.any isViralLicenseFinding then "F"
      else if fs.any isCriticalVulnFinding then "C"
      else "A" := by
  cases hv : fs.any isViralLicenseFinding <;>
    cases hs : fs.any isSecretFinding <;>
      cases hc : fs.any isCriticalVulnFinding <;>
        simp [classify, gt_iff_lt, filter_pos_iff_any, hv, hs, hc]

/-- C1: the risk classification is computed by precedence: if any secret
finding exists or any license finding passes the configured viral test, the
grade is F; else if any vulnerability finding has severity CRITICAL, the
grade is C; else the grade is A — for every finding set, and both workers
persist exactly this grade in `risk_grade` whenever the pipeline runs to the
end (and no grade at all when it errors out). -/
theorem C1_grading_precedence :
    (∀ (r : TrivyReport) (secrets : List SecretEntry),
      computeGrade r secrets =
        if (findingsOf r secrets).any isSecretFinding
            || (findingsOf r secrets).any isViralLicenseFinding then "F"
        else if (findingsOf r secrets).any isCriticalVulnFinding then "C"
        else "A")
    ∧ (∀ (repo : String) (token : Option String) (scanId supabaseUrl : String) (env : ScanEnv),
        (scan_repo repo token scanId supabaseUrl env).final.risk_grade =
          (match env.pdfGen with
           | ExecOutcome.ok => some (computeGrade (envReport env) (envSecrets env))
           | ExecOutcome.fail _ => none))
    ∧ (∀ (repo : String) (token : Option String) (scanId supabaseUrl : String) (env : ScanEnv),
        (runBackgroundScan repo token scanId supabaseUrl env).final.risk_grade =
          (match env.pdfGen with
           | ExecOutcome.ok => some (computeGrade (envReport env) (envSecrets env))
           | ExecOutcome.fail _ => none)) := by
  refine ⟨?_, ?_, ?_⟩
  · intro r secrets
    rw [computeGrade_eq_classify, classify_eq_any_form]
  · intro repo token scanId supabaseUrl env
    cases h : env.pdfGen <;> simp [scan_repo, h]
  · intro repo token scanId supabaseUrl env
    cases h : env.pdfGen <;> simp [runBackgroundScan, h]

/-- C9: the classification is deterministic (a function) and
order-independent: permuting the finding list never changes the grade; and
`classify` of the flattened finding set is exactly the nested grading both
workers run. -/
theorem C9_classify_perm_invariant (l l2 : List Finding) (h : l.Perm l2) :
    classify l = classify l2
    ∧ ∀ (r : TrivyReport) (secrets : List SecretEntry),
        computeGrade r secrets = classify (findingsOf r secrets) := by
  constructor
  · simp only [classify]
    rw [← List.countP_eq_length_filter, ← List.countP_eq_length_filter,
      ← List.countP_eq_length_filter, ← List.countP_eq_length_filter,
      ← List.countP_eq_length_filter, ← List.countP_eq_length_filter]
    rw [h.countP_eq, h.countP_eq, h.countP_eq]
  · exact computeGrade_eq_classify

/-- A sample secret finding, used by concrete instantiations. -/
def sampleSecret : SecretEntry :=
  { Description := "aws-access-key", File := "config.env", StartLine := 3, Secret := "AKIA" }

/-- Witness for C9 at a concrete permutation: swapping a secret finding and a
license finding leaves the grade unchanged. -/
theorem C9_witness :
    ([Finding.secret sampleSecret, Finding.license "p" "MIT"].Perm
        [Finding.license "p" "MIT", Finding.secret sampleSecret])
    ∧ (classify [Finding.secret sampleSecret, Finding.license "p" "MIT"] =
          classify [Finding.license "p" "MIT", Finding.secret sampleSecret]
        ∧ ∀ (r : TrivyReport) (secrets : List SecretEntry),
            computeGrade r secrets = classify (findingsOf r secrets)) :=
  ⟨List.Perm.swap _ _ _,
   C9_classify_perm_invariant _ _ (List.Perm.swap _ _ _)⟩

/-- C10: viral-license matching is substring containment of AGPL, GPL or
SSPL in the license name, so a name containing GPL anywhere — including the
weak-copyleft LGPL-2.1 — is counted viral and forces grade F. -/
theorem C10_viral_substring_matching :
    (∀ name : String,
      isViralName name =
        (jsIncludes name "AGPL" || (jsIncludes name "GPL" || jsIncludes name "SSPL")))
    ∧ jsIncludes "LGPL-2.1" "GPL" = true
    ∧ isViralName "LGPL-2.1" = true
    ∧ classify [Finding.license "libfoo" "LGPL-2.1"] = "F"
    ∧ computeGrade (TrivyReport.mk [ScanTarget.mk [LicenseEntry.mk "libfoo" "LGPL-2.1"] []]) [] = "F" := by
  refine ⟨?_, by decide, by decide, by decide, by decide⟩
  intro name
  simp [isViralName, viralKeywords]

/-- A benign environment: every external step succeeds and no scanner
reports a finding (gitleaks writes no report file when it finds nothing). -/
def envBenign : ScanEnv :=
  { trivyExec := ExecOutcome.ok
    trivyParse := some (TrivyReport.mk [])
    trivyParseErrMsg := "Unexpected end of JSON input"
    sbomExec := ExecOutcome.ok
    sbomFileWritten := false
    sbomUploadFails := false
    cloneExec := ExecOutcome.ok
    gitleaksExec := ExecOutcome.ok
    leaksFileExists := false
    leaksParse := none
    leaksParseErrMsg := "Unexpected end of JSON input"
    pdfGen := ExecOutcome.ok
    pdfUploadFails := false }

/-- C2, counterexample: the claim that the credential token never appears in
any log output is false. When the clone subprocess fails, the worker logs
the thrown error message, which embeds the interpolated command line and
with it the token-authenticated URL: here the token SEKRET appears verbatim
in a log line. -/
theorem C2_token_in_logs :
    ((scan_repo "https://github.com/acme/app" (some "SEKRET") "7" "https://sb.example.co"
        { envBenign with cloneExec := ExecOutcome.fail "fatal: could not read Username" }).logs.any
      (fun m => jsIncludes m "SEKRET")) = true := by decide

/-- C2, amended: the persisted job record never depends on (and hence never
contains) the credential token — the terminal `scans`-table update of a run
with a token is identical to the update of the same run without one, for
both workers — but log output can contain the token (see the
counterexample). -/
theorem C2_record_noninterference :
    ∀ (repo : String) (token : Option String) (scanId supabaseUrl : String) (env : ScanEnv),
      (scan_repo repo token scanId supabaseUrl env).final =
        (scan_repo repo none scanId supabaseUrl env).final
      ∧ (runBackgroundScan repo token scanId supabaseUrl env).final =
          (runBackgroundScan repo none scanId supabaseUrl env).final := by
  intro repo token scanId supabaseUrl env
  obtain ⟨te, tp, tpe, se, sfw, suf, ce, ge, lfe, lp, lpe, pg, puf⟩ := env
  constructor
  · cases pg <;> cases se <;> cases sfw <;> simp [scan_repo, sbomStage]
  · cases pg <;> simp [runBackgroundScan]

/-- C3: evaluation at the failing input. When the storage upload of the
certificate fails (supabase returns an error value; it does not throw), the
v9 worker ignores the result and still marks the job COMPLETED with a
`pdf_url` pointing at the object that was never stored — the upload trace
records the failed attempt, yet the terminal update carries no error. The
earlier iteration in `src/unnamed/part_000` checks `uploadError` and
escalates; the current worker dropped that check. -/
theorem C3_upload_failure_still_completed :
    ((scan_repo "https://github.com/acme/app" none "7" "https://sb.example.co"
        { envBenign with pdfUploadFails := true }).uploads = [("7.pdf", false)])
    ∧ (scan_repo "https://github.com/acme/app" none "7" "https://sb.example.co"
        { envBenign with pdfUploadFails := true }).final =
      { status := "COMPLETED", risk_grade := some "A",
        pdf_url := some "https://sb.example.co/storage/v1/object/public/audits/7.pdf",
        sbom_url := none, last_error := none } := by decide

/-- C4, counterexample: the claim that every scanner invocation uses a
discrete argument list is false — on a concrete run, no performed
invocation is in argument-array form, and the Trivy invocation is the
single interpolated shell string embedding the token-authenticated URL. -/
theorem C4_shell_string_counterexample :
    ((scan_repo "https://github.com/acme/app" (some "SEKRET") "7" "u" envBenign).invocations.all
        Invocation.isArgList = false)
    ∧ Invocation.shellString (trivyCmd "https://SEKRET@github.com/acme/app") ∈
        (scan_repo "https://github.com/acme/app" (some "SEKRET") "7" "u" envBenign).invocations := by
  decide

/-- C4, amended: every external invocation both workers ever perform is a
single interpolated shell string (never an argument array), and the Trivy
invocation interpolates the authenticated repository URL into it. -/
theorem C4_all_invocations_interpolated :
    ∀ (repo : String) (token : Option String) (scanId supabaseUrl : String) (env : ScanEnv),
      ((scan_repo repo token scanId supabaseUrl env).invocations.all
          Invocation.isShellString = true)
      ∧ Invocation.shellString (trivyCmd (authRepoOf repo token)) ∈
          (scan_repo repo token scanId supabaseUrl env).invocations
      ∧ ((runBackgroundScan repo token scanId supabaseUrl env).invocations.all
          Invocation.isShellString = true)
      ∧ Invocation.shellString (trivyCmd (authRepoOf repo token)) ∈
          (runBackgroundScan repo token scanId supabaseUrl env).invocations := by
  intro repo token scanId supabaseUrl env
  obtain ⟨te, tp, tpe, se, sfw, suf, ce, ge, lfe, lp, lpe, pg, puf⟩ := env
  refine ⟨?_, ?_, ?_, ?_⟩ <;>
    cases pg <;> cases ce <;> cases ge <;> cases lfe <;> cases lp <;>
      simp [scan_repo, runBackgroundScan, gitleaksStage, Invocation.isShellString]

/-- C5: a failure of one scanner never aborts the job. Whenever the
certificate stage succeeds (the only step whose exception escapes the
per-stage catch blocks), both workers still reach COMPLETED — never ERROR —
with the grade computed from whatever the surviving scanners produced
(`envReport`/`envSecrets` are the fallbacks-applied scanner outputs). -/
theorem C5_soft_failure_still_completed :
    ∀ (repo : String) (token : Option String) (scanId supabaseUrl : String) (env : ScanEnv),
      env.pdfGen = ExecOutcome.ok →
        (scan_repo repo token scanId supabaseUrl env).final.status = "COMPLETED"
        ∧ (scan_repo repo token scanId supabaseUrl env).final.status ≠ "ERROR"
        ∧ (scan_repo repo token scanId supabaseUrl env).final.risk_grade =
            some (computeGrade (envReport env) (envSecrets env))
        ∧ (runBackgroundScan repo token scanId supabaseUrl env).final.status = "COMPLETED"
        ∧ (runBackgroundScan repo token scanId supabaseUrl env).final.risk_grade =
            some (computeGrade (envReport env) (envSecrets env)) := by
  intro repo token scanId supabaseUrl env h
  refine ⟨?_, ?_, ?_, ?_, ?_⟩ <;> simp [scan_repo, runBackgroundScan, h]

/-- An environment where the vulnerability scanner times out while the
secret scanner succeeds and reports one finding. -/
def envC5 : ScanEnv :=
  { envBenign with
      trivyExec := ExecOutcome.fail "timeout 30m exceeded"
      leaksFileExists := true
      leaksParse := some [sampleSecret] }

/-- Witness for C5: with the vulnerability scanner timed out and gitleaks
reporting one secret, the job completes with grade F computed from the
surviving scanner. -/
theorem C5_witness :
    envC5.pdfGen = ExecOutcome.ok
    ∧ ((scan_repo "https://github.com/acme/app" none "7" "u" envC5).final.status = "COMPLETED"
        ∧ (scan_repo "https://github.com/acme/app" none "7" "u" envC5).final.status ≠ "ERROR"
        ∧ (scan_repo "https://github.com/acme/app" none "7" "u" envC5).final.risk_grade =
            some (computeGrade (envReport envC5) (envSecrets envC5))
        ∧ (runBackgroundScan "https://github.com/acme/app" none "7" "u" envC5).final.status = "COMPLETED"
        ∧ (runBackgroundScan "https://github.com/acme/app" none "7" "u" envC5).final.risk_grade =
            some (computeGrade (envReport envC5) (envSecrets envC5))) :=
  ⟨rfl, C5_soft_failure_still_completed "https://github.com/acme/app" none "7" "u" envC5 rfl⟩

/-- C6, counterexample: the claim that a repeat scan performs zero scanner
invocations is false — the workers have no cache at all, so any job (in
particular a second job for an unchanged repository) starts by invoking
Trivy as a fresh scan. -/
theorem C6_no_cache_counterexample :
    (scan_repo "https://github.com/acme/app" none "8" "u" envBenign).invocations.length ≠ 0
    ∧ (scan_repo "https://github.com/acme/app" none "8" "u" envBenign).invocations.head? =
        some (Invocation.shellString (trivyCmd "https://github.com/acme/app")) := by
  decide

/-- C6, amended: no cache short-circuit exists. Every job — regardless of any
prior completed job for the same repository and commit, which the worker
never consults — performs the full scanner pipeline: its first external
invocation is the Trivy scan of the (authenticated) repository URL, and at
least three external invocations always occur. -/
theorem C6_every_job_scans :
    ∀ (repo : String) (token : Option String) (scanId supabaseUrl : String) (env : ScanEnv),
      (scan_repo repo token scanId supabaseUrl env).invocations.head? =
        some (Invocation.shellString (trivyCmd (authRepoOf repo token)))
      ∧ 3 ≤ (scan_repo repo token scanId supabaseUrl env).invocations.length := by
  intro repo token scanId supabaseUrl env
  obtain ⟨te, tp, tpe, se, sfw, suf, ce, ge, lfe, lp, lpe, pg, puf⟩ := env
  constructor <;>
    cases pg <;> cases ce <;> cases ge <;> cases lfe <;> cases lp <;>
      simp [scan_repo, gitleaksStage]

/-- An environment whose findings force grade F (one leaked secret). -/
def envGradeF : ScanEnv :=
  { envBenign with leaksFileExists := true, leaksParse := some [sampleSecret] }

/-- C7: the terminal status is a function of pipeline survival alone, never
of the grade: whenever the pipeline runs to the end the status is COMPLETED
(for every environment, hence for every grade — concretely also for grade
F), and ERROR occurs exactly when the certificate stage throws. -/
theorem C7_status_not_function_of_grade :
    (∀ (repo : String) (token : Option String) (scanId supabaseUrl : String) (env : ScanEnv),
      (scan_repo repo token scanId supabaseUrl env).final.status =
        (match env.pdfGen with
         | ExecOutcome.ok => "COMPLETED"
         | ExecOutcome.fail _ => "ERROR")
      ∧ (runBackgroundScan repo token scanId supabaseUrl env).final.status =
          (match env.pdfGen with
           | ExecOutcome.ok => "COMPLETED"
           | ExecOutcome.fail _ => "ERROR"))
    ∧ ((scan_repo "https://github.com/acme/app" none "9" "u" envGradeF).final.status = "COMPLETED"
        ∧ (scan_repo "https://github.com/acme/app" none "9" "u" envGradeF).final.risk_grade = some "F") := by
  refine ⟨?_, by decide⟩
  intro repo token scanId supabaseUrl env
  constructor <;> cases h : env.pdfGen <;> simp [scan_repo, runBackgroundScan, h]

/-- The scratch clone directory and the SBOM scratch file of a job are
distinct paths. -/
theorem tempDir_ne_sbomPath (scanId : String) : tempDirOf scanId ≠ sbomPathOf scanId := by
  intro h
  have h2 := congrArg String.data h
  simp only [tempDirOf, sbomPathOf, String.data_append] at h2
  simp at h2

/-- C8, counterexample: the claim that no scratch file ever survives a
terminal state is false — when the SBOM invocation fails after its output
file was written, the catch block does not delete `sbom_7.json`, yet the
job reaches COMPLETED. -/
theorem C8_sbom_file_survives :
    ((scan_repo "https://github.com/acme/app" none "7" "u"
        { envBenign with sbomExec := ExecOutcome.fail "signal: killed", sbomFileWritten := true }).files
      = ["sbom_7.json"])
    ∧ (scan_repo "https://github.com/acme/app" none "7" "u"
        { envBenign with sbomExec := ExecOutcome.fail "signal: killed", sbomFileWritten := true }).final.status
      = "COMPLETED" := by
  decide

/-- C8, amended: the per-job clone directory is released on every code path
of both workers (it never survives a terminal state), and the v4 worker
leaves no scratch file at all; but the v9 worker's SBOM scratch file
survives exactly when the SBOM invocation fails after writing its output
file. -/
theorem C8_cleanup_amended :
    ∀ (repo : String) (token : Option String) (scanId supabaseUrl : String) (env : ScanEnv),
      (tempDirOf scanId ∉ (scan_repo repo token scanId supabaseUrl env).files)
      ∧ ((scan_repo repo token scanId supabaseUrl env).files =
          if env.sbomExec.isFail && env.sbomFileWritten then [sbomPathOf scanId] else [])
      ∧ (runBackgroundScan repo token scanId supabaseUrl env).files = [] := by
  intro repo token scanId supabaseUrl env
  obtain ⟨te, tp, tpe, se, sfw, suf, ce, ge, lfe, lp, lpe, pg, puf⟩ := env
  refine ⟨?_, ?_, ?_⟩ <;>
    cases pg <;> cases se <;> cases sfw <;>
      simp [scan_repo, runBackgroundScan, sbomStage, ExecOutcome.isFail, tempDir_ne_sbomPath]
